import Mathlib

/-!
Verification of the nlq-frontend client against its specification.

The development shallowly embeds the claim-relevant JavaScript of the
repository:
  * the Zustand store (`src/store/nlqStore.js`, file `unnamed/part_003`):
    history management, result/error slots, import/export;
  * the result-shaping layer (`QueryResult`, file `unnamed/part_002`):
    column classification, cell formatting, chart projections;
  * the axios response interceptor (`src/services/api.js`);
  * the chat submission gate (`src/components/ChatInterface.jsx`).

JavaScript runtime values are modelled by the inductive `JsVal`.  JS
numbers are modelled as exact rationals (`ℚ`); the concrete values the
claims exercise are small decimals on which double arithmetic and exact
rational arithmetic agree.  `null` and `undefined` are merged into a
single `JsVal.null` constructor: every code path under verification
treats them alike (the `value === null || value === undefined` check,
falsiness, absence of a `message` field).
-/

/-- Model of a JavaScript runtime value (JSON-representable fragment).
`null` covers both JS `null` and `undefined`; objects are insertion-ordered
association lists, as JS string-keyed objects are. -/
inductive JsVal where
  | null : JsVal
  | bool : Bool → JsVal
  | num : ℚ → JsVal
  | str : String → JsVal
  | arr : List JsVal → JsVal
  | obj : List (String × JsVal) → JsVal

/-- JS truthiness of a value (`if (v)`). -/
def jsTruthy : JsVal → Bool
  | .null => false
  | .bool b => b
  | .num q => q ≠ 0
  | .str s => s ≠ ""
  | .arr _ => true
  | .obj _ => true

/-- `typeof v === 'number'`. -/
def typeofNumber : JsVal → Bool
  | .num _ => true
  | _ => false

/-- `typeof v === 'string'`. -/
def typeofString : JsVal → Bool
  | .str _ => true
  | _ => false

/-- Accumulate a run of decimal digits: returns the value read so far, the
number of digits consumed, and the rest of the input. -/
def takeDigits : ℕ → ℕ → List Char → ℕ × ℕ × List Char
  | acc, cnt, [] => (acc, cnt, [])
  | acc, cnt, c :: cs =>
    if c.isDigit then takeDigits (acc * 10 + (c.toNat - 48)) (cnt + 1) cs
    else (acc, cnt, c :: cs)

/-- Parse a signed decimal numeral (`-12.5`, `+3`, `.5`, `7.`).  Models the
JS `Number(...)` string grammar restricted to plain decimal numerals (the
exponent and hex forms never arise in the verified paths); `none` models
`NaN`. -/
def parseDec (cs : List Char) : Option ℚ :=
  let p := match cs with
    | '-' :: r => (true, r)
    | '+' :: r => (false, r)
    | r => (false, r)
  let neg := p.1
  let t1 := takeDigits 0 0 p.2
  let ip := t1.1
  let icnt := t1.2.1
  let signed : ℚ → ℚ := fun x => if neg then -x else x
  match t1.2.2 with
  | [] => if icnt = 0 then none else some (signed ip)
  | '.' :: cs3 =>
    let t2 := takeDigits 0 0 cs3
    if t2.2.2.isEmpty then
      if icnt = 0 && t2.2.1 = 0 then none
      else some (signed ((ip : ℚ) + (t2.1 : ℚ) / ((10 ^ t2.2.1 : ℕ) : ℚ)))
    else none
  | _ => none

/-- `Number(s)` for a string: whitespace-only coerces to `0`, otherwise the
trimmed text must be a decimal numeral; `none` models `NaN`. -/
def jsStrToNumber (s : String) : Option ℚ :=
  if s.trim = "" then some 0 else parseDec s.trim.toList

/-- `Number(v)` coercion; `none` models `NaN`.  Arrays and objects (which
coerce through `toString` in JS) are conservatively mapped to `NaN`: the
verified code only coerces primitive cell values. -/
def jsToNumber : JsVal → Option ℚ
  | .null => some 0
  | .bool b => some (if b then 1 else 0)
  | .num q => some q
  | .str s => jsStrToNumber s
  | .arr _ => none
  | .obj _ => none

/-- Render a natural number with `en-US` thousands grouping, digits given
reversed (least-significant first). -/
def commaChunks (ds : List Char) : List Char :=
  if _h : ds.length ≤ 3 then ds
  else ds.take 3 ++ ',' :: commaChunks (ds.drop 3)
termination_by ds.length
decreasing_by simp [List.length_drop]; omega

/-- `en-US` digit grouping of a natural number: `1234 ↦ "1,234"`. -/
def groupThousands (n : ℕ) : String :=
  String.mk ((commaChunks (toString n).toList.reverse).reverse)

/-- Left-pad the decimal representation of `f` with zeros to `k` digits. -/
def padZeros (f : ℕ) (k : ℕ) : String :=
  let s := toString f
  String.mk (List.replicate (k - s.length) '0') ++ s

/-- Decimal string of the exact value `m / 10^k`, trailing fraction zeros
trimmed, no grouping.  This is how JS `Number.prototype.toString` prints a
value that is an exact short decimal. -/
def decStr (m : ℤ) (k : ℕ) : String :=
  let a := m.natAbs
  let p := 10 ^ k
  let ip := a / p
  let f := a % p
  let fs :=
    if f = 0 then ""
    else "." ++ String.mk (((padZeros f k).toList.reverse.dropWhile (fun c => c == '0')).reverse)
  (if m < 0 then "-" else "") ++ toString ip ++ fs

/-- Decimal rendering of a rational whose reduced denominator divides a
power of ten (every concrete value in the verified paths does); other
denominators fall back to a fraction marker.  Models JS number
stringification on short decimals. -/
def ratToString (q : ℚ) : String :=
  match (List.range 41).find? (fun k => 10 ^ k % q.den == 0) with
  | some k => decStr (q.num * ((10 : ℤ) ^ k) / (q.den : ℤ)) k
  | none => toString q.num ++ "/" ++ toString q.den

/-- JS string conversion `String(v)` (used for object-key coercion and
string concatenation). -/
def jsDisplay : JsVal → String
  | .null => "null"
  | .bool b => if b then "true" else "false"
  | .num q => ratToString q
  | .str s => s
  | .arr xs => String.intercalate "," (xs.attach.map (fun x => jsDisplay x.1))
  | .obj _ => "[object Object]"
decreasing_by
  have := List.sizeOf_lt_of_mem x.2
  simp only [JsVal.arr.sizeOf_spec]
  omega

/-- JS `a + b` on the value shapes that occur in the verified paths:
number addition, string concatenation (either side a string), `null`
coerced to `0` against a number. -/
def jsAdd : JsVal → JsVal → JsVal
  | .str a, b => .str (a ++ jsDisplay b)
  | a, .str b => .str (jsDisplay a ++ b)
  | a, b =>
    match jsToNumber a, jsToNumber b with
    | some x, some y => .num (x + y)
    | _, _ => .str (jsDisplay a ++ jsDisplay b)

/-- JS strict equality `===` on the modelled values.  Objects and arrays
compare by reference in JS; distinct occurrences are modelled as unequal. -/
def jsStrictEq : JsVal → JsVal → Bool
  | .null, .null => true
  | .bool a, .bool b => a == b
  | .num a, .num b => a == b
  | .str a, .str b => a == b
  | _, _ => false

/-- Property read `v[k]` on an object; absent keys yield `undefined`
(modelled by `JsVal.null`). -/
def jsGet (v : JsVal) (k : String) : JsVal :=
  match v with
  | .obj fs =>
    match fs.find? (fun p => p.1 == k) with
    | some p => p.2
    | none => .null
  | _ => .null

/-- Object-field assignment `o[k] = v`: updates an existing key in place
(keeping its position, as JS insertion order does) or appends a new key. -/
def objSet (fs : List (String × JsVal)) (k : String) (v : JsVal) : List (String × JsVal) :=
  if fs.any (fun p => p.1 == k) then
    fs.map (fun p => if p.1 == k then (k, v) else p)
  else fs ++ [(k, v)]

/-- Object spread `{...base, ...extra}`: later keys override earlier ones,
original key positions are kept. -/
def objSpread (base extra : List (String × JsVal)) : List (String × JsVal) :=
  extra.foldl (fun acc p => objSet acc p.1 p.2) base

/-! ## The Zustand store (`useNLQStore`, `unnamed/part_003`) -/

/-- The `settings` record of the store, with its initial defaults. -/
structure Settings where
  autoExecute : Bool
  showExplanation : Bool
  maxResults : ℕ
  enableSuggestions : Bool
  enableCharts : Bool
  chartType : String

/-- Initial `settings` value of the store. -/
def initialSettings : Settings :=
  { autoExecute := true
    showExplanation := true
    maxResults := 1000
    enableSuggestions := true
    enableCharts := true
    chartType := "table" }

/-- The state held by `useNLQStore`.  History entries are raw JS values
(`importHistory` can install arbitrary parsed JSON in the history). -/
structure NLQState where
  queryHistory : List JsVal
  currentQuery : String
  isProcessing : Bool
  currentLanguage : String
  currentResult : JsVal
  queryError : JsVal
  theme : String
  fontSize : String
  currentView : String
  settings : Settings
  schema : JsVal
  schemaLoading : Bool
  serviceHealth : JsVal

/-- The store's initial state. -/
def initialState : NLQState :=
  { queryHistory := []
    currentQuery := ""
    isProcessing := false
    currentLanguage := "en"
    currentResult := .null
    queryError := .null
    theme := "light"
    fontSize := "medium"
    currentView := "dashboard"
    settings := initialSettings
    schema := .null
    schemaLoading := false
    serviceHealth := .null }

/-- `setCurrentQuery(query)`. -/
def setCurrentQuery (query : String) (s : NLQState) : NLQState :=
  { s with currentQuery := query }

/-- `setProcessing(isProcessing)`. -/
def setProcessing (b : Bool) (s : NLQState) : NLQState :=
  { s with isProcessing := b }

/-- The history entry built by `addToHistory`:
`{ id: Date.now(), timestamp: new Date().toISOString(), ...queryData }`.
`now` and `ts` stand for the ambient clock reads; the spread lets
`queryData` override the generated `id`/`timestamp` fields. -/
def mkHistoryEntry (now : ℚ) (ts : String) (queryData : List (String × JsVal)) : JsVal :=
  .obj (objSpread [("id", .num now), ("timestamp", .str ts)] queryData)

/-- `addToHistory(queryData)`: prepends the new entry and keeps the first
100 elements (`[newEntry, ...queryHistory].slice(0, 100)`). -/
def addToHistory (now : ℚ) (ts : String) (queryData : List (String × JsVal))
    (s : NLQState) : NLQState :=
  { s with queryHistory := (mkHistoryEntry now ts queryData :: s.queryHistory).take 100 }

/-- One `addToHistory` call's inputs: clock value, ISO timestamp, payload. -/
abbrev AddCall := ℚ × String × List (String × JsVal)

/-- Run a sequence of `addToHistory` calls, oldest call first. -/
def runAddCalls (s : NLQState) (calls : List AddCall) : NLQState :=
  calls.foldl (fun st c => addToHistory c.1 c.2.1 c.2.2 st) s

/-- `removeFromHistory(id)`: keeps the entries with `entry.id !== id`. -/
def removeFromHistory (id : JsVal) (s : NLQState) : NLQState :=
  { s with queryHistory := s.queryHistory.filter (fun entry => !jsStrictEq (jsGet entry "id") id) }

/-- `setCurrentResult(result)`: stores the result and nulls the error. -/
def setCurrentResult (result : JsVal) (s : NLQState) : NLQState :=
  { s with currentResult := result, queryError := .null }

/-- `setQueryError(error)`: stores the error and nulls the result. -/
def setQueryError (error : JsVal) (s : NLQState) : NLQState :=
  { s with queryError := error, currentResult := .null }

/-- `clearResult()`. -/
def clearResult (s : NLQState) : NLQState :=
  { s with currentResult := .null, queryError := .null }

/-- The JSON document produced by `exportHistory`
(`JSON.stringify(queryHistory, null, 2)`), modelled at the document-value
level: the serialized text denotes exactly the array of the current history
entries (`JSON.parse ∘ JSON.stringify` is the identity on the
JSON-representable values stored here; pretty-printing whitespace does not
change the denoted value). -/
def exportHistoryDoc (s : NLQState) : JsVal :=
  .arr s.queryHistory

/-- Outcome of `importHistory`: the resolved data, or one of the rejection
messages (`Invalid file format`, `Failed to parse file`, `Failed to read
file`). -/
inductive ImportOutcome where
  | resolved : List JsVal → ImportOutcome
  | formatError : ImportOutcome
  | parseError : ImportOutcome
  | readError : ImportOutcome

/-- `importHistory(file)` after the file text has been read: `parsed` is
the outcome of `JSON.parse` on the file text (`Except.error` models a parse
exception).  An array replaces the history wholesale; any other top-level
value rejects with the format error; a parse exception rejects with the
parse error.  (A `FileReader` failure, rejecting with the read error before
parsing, happens outside this function and never touches the state.) -/
def importHistory (parsed : Except String JsVal) (s : NLQState) :
    ImportOutcome × NLQState :=
  match parsed with
  | .error _ => (.parseError, s)
  | .ok data =>
    match data with
    | .arr items => (.resolved items, { s with queryHistory := items })
    | _ => (.formatError, s)

/-! ## Result shaping (`QueryResult`, `unnamed/part_002`) -/

/-- A column descriptor `{name, type}` of a `QueryResult`. -/
structure Column where
  name : String
  type : String
deriving DecidableEq

/-- A result row: a JS object keyed by column name. -/
abbrev ResultRow := List (String × JsVal)

/-- `row[name]` for a result row; a missing key yields `undefined`
(modelled by `JsVal.null`). -/
def rowGet (row : ResultRow) (name : String) : JsVal :=
  match row.find? (fun p => p.1 == name) with
  | some p => p.2
  | none => .null

/-- `data?.[0]?.[name]`: the value under `name` in the first row, or
`undefined` when there is no first row. -/
def firstRowGet (data : List ResultRow) (name : String) : JsVal :=
  match data with
  | [] => .null
  | row :: _ => rowGet row name

/-- `numericColumns`: the columns with `col.type === 'number'` or whose
first-row value has JS type number. -/
def numericColumns (columns : List Column) (data : List ResultRow) : List Column :=
  columns.filter (fun col => col.type == "number" || typeofNumber (firstRowGet data col.name))

/-- `categoricalColumns`: the columns with `col.type === 'string'` or whose
first-row value has JS type string. -/
def categoricalColumns (columns : List Column) (data : List ResultRow) : List Column :=
  columns.filter (fun col => col.type == "string" || typeofString (firstRowGet data col.name))

/-- Substring test over character lists: does the second list contain the
first as a contiguous run starting at its head? -/
def listStartsWith : List Char → List Char → Bool
  | [], _ => true
  | _ :: _, [] => false
  | a :: as, b :: bs => a == b && listStartsWith as bs

/-- Substring test over character lists (any position). -/
def listHasSub : List Char → List Char → Bool
  | pat, [] => listStartsWith pat []
  | pat, c :: cs => listStartsWith pat (c :: cs) || listHasSub pat cs

/-- JS `hay.includes(pat)`. -/
def strIncludes (hay pat : String) : Bool :=
  listHasSub pat.toList hay.toList

/-- `column.name.toLowerCase().includes('rate'/'percentage'/'conversion')`. -/
def isRateName (name : String) : Bool :=
  strIncludes name.toLower "rate" || strIncludes name.toLower "percentage" ||
    strIncludes name.toLower "conversion"

/-- `column.name.toLowerCase().includes('amount'/'price'/'revenue'/'sales')`. -/
def isCurrencyName (name : String) : Bool :=
  strIncludes name.toLower "amount" || strIncludes name.toLower "price" ||
    strIncludes name.toLower "revenue" || strIncludes name.toLower "sales"

/-- `column.name.toLowerCase().includes('count'/'quantity')`. -/
def isCountName (name : String) : Bool :=
  strIncludes name.toLower "count" || strIncludes name.toLower "quantity"

/-- `Math.round`: round half toward positive infinity. -/
def jsRound (q : ℚ) : ℤ :=
  (q + 1 / 2).floor

/-- `Math.round(q * 100) / 100`. -/
def round2 (q : ℚ) : ℚ :=
  ((jsRound (q * 100) : ℤ) : ℚ) / 100

/-- `q.toLocaleString('en-US', {minimumFractionDigits: 2,
maximumFractionDigits: 2})`: grouped integer digits and exactly two
fraction digits, rounding half away from zero (the `Intl` default). -/
def localeString2 (q : ℚ) : String :=
  let n : ℕ := ((|q| * 100 + 1 / 2).floor).toNat
  let ip := n / 100
  let f := n % 100
  (if q < 0 then "-" else "") ++ groupThousands ip ++ "." ++
    (if f < 10 then "0" else "") ++ toString f

/-- `q.toLocaleString('en-US')` with the `en-US` defaults: grouped integer
digits and at most three fraction digits (trailing zeros dropped), rounding
half away from zero. -/
def localeStringDefault (q : ℚ) : String :=
  let n : ℕ := ((|q| * 1000 + 1 / 2).floor).toNat
  let ip := n / 1000
  let f := n % 1000
  let fd :=
    if f = 0 then ""
    else "." ++ String.mk (((padZeros f 3).toList.reverse.dropWhile (fun c => c == '0')).reverse)
  (if q < 0 then "-" else "") ++ groupThousands ip ++ fd

/-- `formatCellValue(value, column)`: null/undefined becomes the dash;
values in columns classified numeric are coerced and formatted by the
column-name pattern rules (rate/percentage/conversion, then
amount/price/revenue/sales, then count/quantity, then plain rounding);
everything else is returned as-is. -/
def formatCellValue (columns : List Column) (data : List ResultRow)
    (value : JsVal) (column : Column) : JsVal :=
  match value with
  | .null => .str "-"
  | v =>
    if (numericColumns columns data).any (fun col => col.name == column.name) then
      match jsToNumber v with
      | none => v
      | some numValue =>
        if isRateName column.name then
          .str (decStr (jsRound (numValue * 100)) 2 ++ "%")
        else if isCurrencyName column.name then
          .str ("$" ++ localeString2 numValue)
        else if isCountName column.name then
          .str (localeStringDefault numValue)
        else
          .num (round2 numValue)
    else v

/-- `prepareChartData()`: each row becomes `{index: i+1, ...}` with every
column value coerced to a number when `isNaN` does not reject it. -/
def prepareChartData (columns : List Column) (data : List ResultRow) : List ResultRow :=
  if data.isEmpty then []
  else
    data.enum.map (fun p =>
      columns.foldl
        (fun chartRow col =>
          let v := rowGet p.2 col.name
          objSet chartRow col.name
            (match jsToNumber v with
             | some q => .num q
             | none => v))
        [("index", .num ((p.1 : ℚ) + 1))])

/-- Accumulation step of the pie chart's `data.reduce`: JS checks the
truthiness of `acc[category]`, so a present-but-falsy sum is overwritten
rather than added to. -/
def pieAccum (acc : List (String × JsVal)) (k : String) (v : JsVal) :
    List (String × JsVal) :=
  match acc.find? (fun p => p.1 == k) with
  | some p => acc.map (fun q => if q.1 == k then (k, if jsTruthy p.2 then jsAdd p.2 v else v) else q)
  | none => acc ++ [(k, v)]

/-- The grouped data of `renderPieChart`: per row, the category key is the
string coercion of the value in the category column, and the summed value
is the value in the first numeric column, or `1` when there is none. -/
def pieGroup (data : List ResultRow) (catCol : Column) (valueCol : Option Column) :
    List (String × JsVal) :=
  data.foldl
    (fun acc row =>
      let category := jsDisplay (rowGet row catCol.name)
      let value := match valueCol with
        | some vc => rowGet row vc.name
        | none => .num 1
      pieAccum acc category value)
    []

/-- The outcome of one of the chart render functions: a placeholder message
or a chart.  `chart` keeps the bar/line value key, the raw
`categoricalColumns[0] || 'index'` choice (`none` is the `'index'`
fallback) and the prepared chart data; `pie` keeps the grouped pie data
with each summed value coerced by `Number` (`none` models `NaN`). -/
inductive ChartProjection where
  | noNumericData : String → ChartProjection
  | noCategoricalData : String → ChartProjection
  | chart : String → Option Column → List ResultRow → ChartProjection
  | pie : List (String × Option ℚ) → ChartProjection

/-- `renderBarChart()`. -/
def renderBarChart (columns : List Column) (data : List ResultRow) : ChartProjection :=
  match numericColumns columns data with
  | [] => .noNumericData "No numeric data available for bar chart"
  | c :: _ =>
    .chart c.name (categoricalColumns columns data).head? (prepareChartData columns data)

/-- `renderLineChart()`. -/
def renderLineChart (columns : List Column) (data : List ResultRow) : ChartProjection :=
  match numericColumns columns data with
  | [] => .noNumericData "No numeric data available for line chart"
  | c :: _ =>
    .chart c.name (categoricalColumns columns data).head? (prepareChartData columns data)

/-- `renderPieChart()`: guards only on the absence of categorical columns;
with a categorical column it renders a pie even when no numeric column
exists (each row then contributes the value `1`). -/
def renderPieChart (columns : List Column) (data : List ResultRow) : ChartProjection :=
  match categoricalColumns columns data with
  | [] => .noCategoricalData "No categorical data available for pie chart"
  | catCol :: _ =>
    .pie ((pieGroup data catCol (numericColumns columns data).head?).map
      (fun p => (p.1, jsToNumber p.2)))

/-! ## HTTP client adapter (`src/services/api.js`, response interceptor) -/

/-- The part of an axios error response the interceptor reads: the HTTP
status and the server body's `message` field (`none` models an absent
field; the empty string is a present-but-falsy field). -/
structure RespData where
  status : ℕ
  message : Option String
deriving DecidableEq

/-- An axios error: `response` when the server answered with a failure
status, otherwise `request` tells whether a request went out at all, and
`message` is the underlying error text (`""` models a falsy message). -/
structure AxiosError where
  response : Option RespData
  request : Bool
  message : String
deriving DecidableEq

/-- The error taxonomy of the adapter, one constructor per interceptor
branch: server responded with a failure status, no response received, or
anything else. -/
inductive ApiError where
  | request : String → ApiError
  | network : String → ApiError
  | unknown : String → ApiError
deriving DecidableEq

/-- JS `m || d` for an optional server message: absent or empty falls back
to the default. -/
def jsOrElse (m : Option String) (d : String) : String :=
  match m with
  | some s => if s == "" then d else s
  | none => d

/-- The rejected-response interceptor of `api.interceptors.response.use`:
maps each axios error to the error surfaced to callers. -/
def responseInterceptorError (e : AxiosError) : ApiError :=
  match e.response with
  | some r =>
    match r.status with
    | 400 => .request (jsOrElse r.message "Bad Request")
    | 401 => .request "Unauthorized access"
    | 403 => .request "Forbidden access"
    | 404 => .request "Resource not found"
    | 429 => .request "Rate limit exceeded. Please try again later."
    | 500 => .request "Internal server error"
    | s => .request (jsOrElse r.message ("Request failed with status " ++ toString s))
  | none =>
    if e.request then .network "Network error. Please check your connection."
    else .unknown (if e.message == "" then "An unexpected error occurred" else e.message)

/-- The amended per-status message table, written from the amended claim:
statuses 401/403/404/429/500 always carry their fixed message, ignoring
any server-supplied one; status 400 and unlisted statuses prefer a
non-empty server-supplied message and otherwise fall back to the fixed
text; no response with a request made is the network error; anything else
is the unknown error with the underlying (or default) message. -/
def amendedResponseError (e : AxiosError) : ApiError :=
  match e.response with
  | some r =>
    if r.status == 401 then .request "Unauthorized access"
    else if r.status == 403 then .request "Forbidden access"
    else if r.status == 404 then .request "Resource not found"
    else if r.status == 429 then .request "Rate limit exceeded. Please try again later."
    else if r.status == 500 then .request "Internal server error"
    else
      let fixed := if r.status == 400 then "Bad Request"
        else "Request failed with status " ++ toString r.status
      match r.message with
      | some m => if m == "" then .request fixed else .request m
      | none => .request fixed
  | none =>
    if e.request then .network "Network error. Please check your connection."
    else .unknown (if e.message == "" then "An unexpected error occurred" else e.message)

/-! ## Chat submission gate (`ChatInterface.jsx`, `handleSubmit`) -/

/-- Observable outcome of one `handleSubmit` invocation: the store state
afterwards, the input field contents, how many history entries were added
and how many outbound query requests were issued. -/
structure SubmitOutcome where
  state : NLQState
  inputValue : String
  historyAdds : ℕ
  outboundCalls : ℕ

/-- The synchronous part of `handleSubmit` up to and including the
dispatch of `nlqAPI.processQuery`: the guard
`if (!inputValue.trim() || isProcessing) return;` drops the submission
before any mutation; otherwise the input is cleared, the query recorded,
the processing flag raised, the result slots cleared, the user history
entry added and exactly one outbound call issued. -/
def handleSubmit (now : ℚ) (ts : String) (s : NLQState) (inputValue : String) :
    SubmitOutcome :=
  if inputValue.trim == "" || s.isProcessing then
    { state := s, inputValue := inputValue, historyAdds := 0, outboundCalls := 0 }
  else
    let query := inputValue.trim
    let s1 := clearResult (setProcessing true (setCurrentQuery query s))
    let s2 := addToHistory now ts
      [("type", .str "user"), ("query", .str query),
       ("language", .str s.currentLanguage), ("timestamp", .str ts)] s1
    { state := s2, inputValue := "", historyAdds := 1, outboundCalls := 1 }

/-! ## Spec-level predicates and concrete instances used by the claims -/

/-- `Array.isArray(v)`. -/
def jsIsArray : JsVal → Bool
  | .arr _ => true
  | _ => false

/-- The spec's "exactly one of {currentResult, queryError} is non-null". -/
def exactlyOneSet (s : NLQState) : Prop :=
  (s.currentResult ≠ JsVal.null ∧ s.queryError = JsVal.null) ∨
    (s.currentResult = JsVal.null ∧ s.queryError ≠ JsVal.null)

/-- The spec's "at most one of {currentResult, queryError} is non-null". -/
def atMostOneSet (s : NLQState) : Prop :=
  s.currentResult = JsVal.null ∨ s.queryError = JsVal.null

/-- Columns of a result whose declared type is neither `number` nor
`string`, while the first-row value is a numeric string. -/
def c3cols : List Column := [⟨"score", "text"⟩]

/-- Data for the column-classification counterexample: the first-row value
`"12.345"` coerces to a number without error. -/
def c3data : List ResultRow := [[("score", JsVal.str "12.345")]]

/-- A result with one categorical and no numeric column. -/
def c5cols : List Column := [⟨"cat", "string"⟩]

/-- One row of purely categorical data. -/
def c5data : List ResultRow := [[("cat", JsVal.str "a")]]

/-- A server response with status 401 and a server-supplied message. -/
def c8err : AxiosError :=
  { response := some { status := 401, message := some "custom server message" }
    request := true
    message := "" }

/-- A store whose history holds two entries with ids 5 and 6. -/
def c10state : NLQState :=
  { initialState with
      queryHistory := [mkHistoryEntry 5 "t5" [], mkHistoryEntry 6 "t6" []] }

/-! ## Theorems -/

/-- A single `addToHistory` call leaves at most 100 entries. -/
theorem addToHistory_length_le (now : ℚ) (ts : String)
    (qd : List (String × JsVal)) (st : NLQState) :
    (addToHistory now ts qd st).queryHistory.length ≤ 100 := by
  simp only [addToHistory, List.length_take]
  omega

/-- After any nonempty sequence of `addToHistory` calls the history has at
most 100 entries, whatever it held before. -/
theorem runAddCalls_length_le (calls : List AddCall) :
    ∀ s : NLQState, calls ≠ [] →
      (runAddCalls s calls).queryHistory.length ≤ 100 := by
  induction calls with
  | nil => intro s h; exact absurd rfl h
  | cons c rest ih =>
    intro s _
    cases rest with
    | nil => exact addToHistory_length_le c.1 c.2.1 c.2.2 s
    | cons d ds =>
      exact ih (addToHistory c.1 c.2.1 c.2.2 s) (by simp)

/-- C1: after any nonempty sequence of `addToHistory` calls, starting from
any history, the history has at most 100 entries; moreover every single
call prepends the new entry and truncates to the first 100 elements, so
the surviving entries are a prefix of the newest-first list and the
evicted entries are exactly the oldest ones. -/
theorem c1_history_cap_and_eviction (s : NLQState) (calls : List AddCall)
    (hne : calls ≠ []) :
    (runAddCalls s calls).queryHistory.length ≤ 100 ∧
    ∀ (st : NLQState) (c : AddCall),
      (addToHistory c.1 c.2.1 c.2.2 st).queryHistory.length ≤ 100 ∧
      (addToHistory c.1 c.2.1 c.2.2 st).queryHistory
        <+: mkHistoryEntry c.1 c.2.1 c.2.2 :: st.queryHistory ∧
      (addToHistory c.1 c.2.1 c.2.2 st).queryHistory
        = (mkHistoryEntry c.1 c.2.1 c.2.2 :: st.queryHistory).take 100 := by
  refine ⟨runAddCalls_length_le calls s hne, fun st c => ?_⟩
  refine ⟨addToHistory_length_le c.1 c.2.1 c.2.2 st, ?_, rfl⟩
  exact ⟨(mkHistoryEntry c.1 c.2.1 c.2.2 :: st.queryHistory).drop 100,
    List.take_append_drop 100 _⟩

/-- C1 witness: one concrete call starting from the initial state. -/
theorem c1_history_cap_and_eviction_witness :
    (runAddCalls initialState [((0 : ℚ), "t", [])]).queryHistory.length ≤ 100 :=
  (c1_history_cap_and_eviction initialState [((0 : ℚ), "t", [])] (by simp)).1

/-- C2 counterexample: calling `setCurrentResult` with the argument `null`
leaves both `currentResult` and `queryError` null, so after that call it is
not the case that exactly one of the two is non-null. -/
theorem c2_counterexample :
    (setCurrentResult JsVal.null initialState).currentResult = JsVal.null ∧
    (setCurrentResult JsVal.null initialState).queryError = JsVal.null :=
  ⟨rfl, rfl⟩

/-- C2 (amended): after `setCurrentResult` or `setQueryError`, at most one
of {currentResult, queryError} is non-null, and exactly one is non-null
whenever the argument itself is non-null: `setCurrentResult` stores the
result and clears the error, `setQueryError` stores the error and clears
the result. -/
theorem c2_mutual_exclusion (s : NLQState) (v : JsVal) :
    atMostOneSet (setCurrentResult v s) ∧ atMostOneSet (setQueryError v s) ∧
    (v ≠ JsVal.null →
      exactlyOneSet (setCurrentResult v s) ∧ exactlyOneSet (setQueryError v s)) :=
  ⟨Or.inr rfl, Or.inl rfl, fun h => ⟨Or.inl ⟨h, rfl⟩, Or.inr ⟨rfl, h⟩⟩⟩

/-- C2 witness: a non-null result and a non-null error message. -/
theorem c2_mutual_exclusion_witness :
    exactlyOneSet (setCurrentResult (JsVal.str "ok") initialState) ∧
    exactlyOneSet (setQueryError (JsVal.str "oops") initialState) :=
  ⟨((c2_mutual_exclusion initialState (JsVal.str "ok")).2.2 (by simp)).1,
   ((c2_mutual_exclusion initialState (JsVal.str "oops")).2.2 (by simp)).2⟩

/-- C10: `removeFromHistory(id)` removes every entry whose `id` property is
strictly equal to the given id (colliding ids go together), keeps every
other entry, and preserves the relative order of the remaining entries
(the result is a sublist of the original history). -/
theorem c10_removeFromHistory (s : NLQState) (id : JsVal) :
    (∀ e ∈ (removeFromHistory id s).queryHistory,
      jsStrictEq (jsGet e "id") id = false) ∧
    List.Sublist (removeFromHistory id s).queryHistory s.queryHistory ∧
    (∀ e ∈ s.queryHistory, jsStrictEq (jsGet e "id") id = false →
      e ∈ (removeFromHistory id s).queryHistory) := by
  refine ⟨fun e he => ?_, List.filter_sublist _, fun e he h => ?_⟩
  · have := List.of_mem_filter he
    simpa using this
  · exact List.mem_filter.2 ⟨he, by simp [h]⟩

/-- C10 witness: removing id 5 keeps the entry with id 6. -/
theorem c10_removeFromHistory_witness :
    mkHistoryEntry 6 "t6" [] ∈ (removeFromHistory (JsVal.num 5) c10state).queryHistory :=
  (c10_removeFromHistory c10state (JsVal.num 5)).2.2 (mkHistoryEntry 6 "t6" [])
    (List.mem_cons_of_mem _ (List.mem_cons_self _ _)) (by with_unfolding_all rfl)

/-- C3 counterexample: in a result whose only column is declared `text`
and whose first-row value is the string `"12.345"`, the value coerces to a
number without error, yet the column is not classified numeric — it is
classified categorical (the code tests `typeof === 'number'`, not
coercion). -/
theorem c3_counterexample :
    jsToNumber (firstRowGet c3data "score") = some (2469 / 200) ∧
    numericColumns c3cols c3data = [] ∧
    categoricalColumns c3cols c3data = c3cols := by
  refine ⟨by with_unfolding_all rfl, rfl, rfl⟩

/-- C3 (amended): a column is classified numeric iff its declared type is
exactly `number` or the value under its name in the first row is of JS
number type; independently, it is classified categorical iff its declared
type is exactly `string` or that first-row value is of JS string type.
String values that merely coerce to numbers do not make a column
numeric. -/
theorem c3_column_classification (columns : List Column) (data : List ResultRow)
    (col : Column) :
    (col ∈ numericColumns columns data ↔
      col ∈ columns ∧
        (col.type = "number" ∨ typeofNumber (firstRowGet data col.name) = true)) ∧
    (col ∈ categoricalColumns columns data ↔
      col ∈ columns ∧
        (col.type = "string" ∨ typeofString (firstRowGet data col.name) = true)) := by
  constructor <;>
    simp [numericColumns, categoricalColumns, List.mem_filter]

/-- C4 counterexample: the numeric value `42.5` in a column named
`order_count` formats as the string `"42.5"` — the count/quantity rule
keeps fraction digits (JS default `toLocaleString`), it does not render a
grouped integer. -/
theorem c4_counterexample :
    formatCellValue [⟨"order_count", "number"⟩] [[("order_count", JsVal.num (85 / 2))]]
      (JsVal.num (85 / 2)) ⟨"order_count", "number"⟩ = JsVal.str "42.5" := by
  with_unfolding_all rfl

/-- `formatCellValue` on a non-null value reduces to its numeric-column
branch. -/
theorem formatCellValue_ne_null (columns : List Column) (data : List ResultRow)
    (v : JsVal) (col : Column) (hv : v ≠ JsVal.null) :
    formatCellValue columns data v col =
      (if (numericColumns columns data).any (fun c => c.name == col.name) then
        match jsToNumber v with
        | none => v
        | some numValue =>
          if isRateName col.name then
            .str (decStr (jsRound (numValue * 100)) 2 ++ "%")
          else if isCurrencyName col.name then
            .str ("$" ++ localeString2 numValue)
          else if isCountName col.name then
            .str (localeStringDefault numValue)
          else
            .num (round2 numValue)
      else v) := by
  cases v with
  | null => exact absurd rfl hv
  | bool _ => rfl
  | num _ => rfl
  | str _ => rfl
  | arr _ => rfl
  | obj _ => rfl

/-- C4 (amended): the spec's three examples hold (`"12.345"` in
`conversion_rate` renders `"12.35%"`, `1234.5` in `total_revenue` renders
`"$1,234.50"`, `42` in `order_count` renders `"42"`); null/undefined
renders as the dash; for a value in a column classified numeric that
coerces to a number, the first matching name rule wins in the order
rate/percentage/conversion (value rounded to at most two decimal places,
then `%`), amount/price/revenue/sales (dollar sign, grouping, exactly two
decimal places), count/quantity (grouping, up to three fraction digits —
an integer thus renders as a grouped integer), otherwise the value rounded
to two decimal places; values of non-numeric columns (and numeric-column
values that coerce to NaN) pass through unchanged. -/
theorem c4_formatting :
    (formatCellValue [⟨"conversion_rate", "number"⟩]
        [[("conversion_rate", JsVal.str "12.345")]]
        (JsVal.str "12.345") ⟨"conversion_rate", "number"⟩ = JsVal.str "12.35%") ∧
    (formatCellValue [⟨"total_revenue", "number"⟩]
        [[("total_revenue", JsVal.num 1234.5)]]
        (JsVal.num 1234.5) ⟨"total_revenue", "number"⟩ = JsVal.str "$1,234.50") ∧
    (formatCellValue [⟨"order_count", "number"⟩] [[("order_count", JsVal.num 42)]]
        (JsVal.num 42) ⟨"order_count", "number"⟩ = JsVal.str "42") ∧
    (∀ columns data col,
      formatCellValue columns data JsVal.null col = JsVal.str "-") ∧
    (∀ columns data v col q,
      v ≠ JsVal.null →
      (numericColumns columns data).any (fun c => c.name == col.name) = true →
      jsToNumber v = some q →
      (isRateName col.name = true →
        formatCellValue columns data v col =
          JsVal.str (decStr (jsRound (q * 100)) 2 ++ "%")) ∧
      (isRateName col.name = false → isCurrencyName col.name = true →
        formatCellValue columns data v col = JsVal.str ("$" ++ localeString2 q)) ∧
      (isRateName col.name = false → isCurrencyName col.name = false →
        isCountName col.name = true →
        formatCellValue columns data v col = JsVal.str (localeStringDefault q)) ∧
      (isRateName col.name = false → isCurrencyName col.name = false →
        isCountName col.name = false →
        formatCellValue columns data v col = JsVal.num (round2 q))) ∧
    (∀ columns data v col,
      v ≠ JsVal.null →
      (numericColumns columns data).any (fun c => c.name == col.name) = false →
      formatCellValue columns data v col = v) := by
  refine ⟨by with_unfolding_all rfl, by with_unfolding_all rfl,
    by with_unfolding_all rfl, fun _ _ _ => rfl, ?_, ?_⟩
  · intro columns data v col q hv hnum hq
    rw [formatCellValue_ne_null columns data v col hv, hnum, hq]
    simp only [if_true]
    refine ⟨fun h1 => ?_, fun h1 h2 => ?_, fun h1 h2 h3 => ?_, fun h1 h2 h3 => ?_⟩ <;>
      simp [h1]
    · simp [h2]
    · simp [h2, h3]
    · simp [h2, h3]
  · intro columns data v col hv hnum
    rw [formatCellValue_ne_null columns data v col hv, hnum]
    simp

/-- C4 witness: the rate rule and the pass-through rule at concrete
inputs. -/
theorem c4_formatting_witness :
    (formatCellValue [⟨"growth_rate", "number"⟩] [[("growth_rate", JsVal.num 5)]]
      (JsVal.num 5) ⟨"growth_rate", "number"⟩ =
        JsVal.str (decStr (jsRound ((5 : ℚ) * 100)) 2 ++ "%")) ∧
    (formatCellValue [] [] (JsVal.str "hello") ⟨"note", "text"⟩ = JsVal.str "hello") :=
  ⟨((c4_formatting.2.2.2.2.1 [⟨"growth_rate", "number"⟩]
      [[("growth_rate", JsVal.num 5)]] (JsVal.num 5) ⟨"growth_rate", "number"⟩ 5
      (by simp) (by with_unfolding_all rfl) rfl).1 (by with_unfolding_all rfl)),
   (c4_formatting.2.2.2.2.2 [] [] (JsVal.str "hello") ⟨"note", "text"⟩
      (by simp) rfl)⟩

/-- C5 counterexample: a result whose only column is categorical (no
numeric column at all) makes `renderPieChart` render a pie of per-category
counts — the pie projection does not report "no numeric data". -/
theorem c5_counterexample :
    numericColumns c5cols c5data = [] ∧
    renderPieChart c5cols c5data = ChartProjection.pie [("a", some 1)] := by
  exact ⟨rfl, by with_unfolding_all rfl⟩

/-- C5 (amended): when a result has no numeric column, the bar and line
projections report "no numeric data available" and raise no exception;
the pie projection instead guards on categorical columns: with no
categorical column it reports "no categorical data available", and with a
categorical column it still renders a pie in which every row contributes
the value 1. -/
theorem c5_no_numeric_projection (columns : List Column) (data : List ResultRow)
    (h : numericColumns columns data = []) :
    renderBarChart columns data =
      ChartProjection.noNumericData "No numeric data available for bar chart" ∧
    renderLineChart columns data =
      ChartProjection.noNumericData "No numeric data available for line chart" ∧
    (categoricalColumns columns data = [] →
      renderPieChart columns data =
        ChartProjection.noCategoricalData "No categorical data available for pie chart") ∧
    (∀ c cs, categoricalColumns columns data = c :: cs →
      renderPieChart columns data =
        ChartProjection.pie ((pieGroup data c none).map
          (fun p => (p.1, jsToNumber p.2)))) := by
  refine ⟨?_, ?_, fun hc => ?_, fun c cs hc => ?_⟩
  · simp [renderBarChart, h]
  · simp [renderLineChart, h]
  · simp [renderPieChart, hc]
  · simp [renderPieChart, hc, h]

/-- C5 witness: the purely categorical one-row result. -/
theorem c5_no_numeric_projection_witness :
    renderBarChart c5cols c5data =
      ChartProjection.noNumericData "No numeric data available for bar chart" ∧
    renderPieChart c5cols c5data =
      ChartProjection.pie ((pieGroup c5data ⟨"cat", "string"⟩ none).map
        (fun p => (p.1, jsToNumber p.2))) :=
  ⟨(c5_no_numeric_projection c5cols c5data rfl).1,
   (c5_no_numeric_projection c5cols c5data rfl).2.2.2 ⟨"cat", "string"⟩ [] rfl⟩

/-- C6: `importHistory` rejects with the format error exactly when the
parsed top-level value is not an array, rejects with the parse error
exactly when `JSON.parse` fails, leaves the whole state (in particular the
existing history) unchanged in both failure cases, and on a top-level
array replaces the in-memory history wholesale with the parsed items (no
merge). -/
theorem c6_importHistory (parsed : Except String JsVal) (s : NLQState) :
    ((importHistory parsed s).1 = ImportOutcome.formatError ↔
      ∃ j, parsed = Except.ok j ∧ jsIsArray j = false) ∧
    ((importHistory parsed s).1 = ImportOutcome.parseError ↔
      ∃ m, parsed = Except.error m) ∧
    (((importHistory parsed s).1 = ImportOutcome.formatError ∨
      (importHistory parsed s).1 = ImportOutcome.parseError) →
      (importHistory parsed s).2 = s) ∧
    (∀ items, parsed = Except.ok (JsVal.arr items) →
      (importHistory parsed s).1 = ImportOutcome.resolved items ∧
      (importHistory parsed s).2.queryHistory = items) := by
  cases parsed with
  | error m =>
    refine ⟨?_, ?_, fun _ => rfl, fun items h => by cases h⟩
    · simp [importHistory]
    · simp [importHistory]
  | ok j =>
    cases j with
    | arr items =>
      refine ⟨?_, ?_, ?_, ?_⟩
      · simp [importHistory, jsIsArray]
      · simp [importHistory]
      · intro h
        rcases h with h | h <;> cases h
      · intro its h
        cases h
        exact ⟨rfl, rfl⟩
    | null =>
      refine ⟨?_, ?_, fun _ => rfl, fun items h => by cases h⟩
      · simp [importHistory, jsIsArray]
      · simp [importHistory]
    | bool b =>
      refine ⟨?_, ?_, fun _ => rfl, fun items h => by cases h⟩
      · simp [importHistory, jsIsArray]
      · simp [importHistory]
    | num q =>
      refine ⟨?_, ?_, fun _ => rfl, fun items h => by cases h⟩
      · simp [importHistory, jsIsArray]
      · simp [importHistory]
    | str t =>
      refine ⟨?_, ?_, fun _ => rfl, fun items h => by cases h⟩
      · simp [importHistory, jsIsArray]
      · simp [importHistory]
    | obj fs =>
      refine ⟨?_, ?_, fun _ => rfl, fun items h => by cases h⟩
      · simp [importHistory, jsIsArray]
      · simp [importHistory]

/-- C6 witness: importing a top-level string rejects and leaves the state
unchanged; importing an array installs it. -/
theorem c6_importHistory_witness :
    (importHistory (Except.ok (JsVal.str "nope")) initialState).2 = initialState ∧
    (importHistory (Except.ok (JsVal.arr [JsVal.num 1])) c10state).2.queryHistory
      = [JsVal.num 1] :=
  ⟨(c6_importHistory (Except.ok (JsVal.str "nope")) initialState).2.2.1 (Or.inl rfl),
   ((c6_importHistory (Except.ok (JsVal.arr [JsVal.num 1])) c10state).2.2.2
      [JsVal.num 1] rfl).2⟩

/-- C7: exporting the history and importing the exported document
reproduces the identical history sequence, into whatever state the import
runs: the round trip is the identity on the history.  (`JSON.stringify` /
`JSON.parse` are modelled at the document-value level, where their
composition is the identity on the JSON-representable history values.) -/
theorem c7_export_import_roundtrip (s t : NLQState) :
    (importHistory (Except.ok (exportHistoryDoc s)) t).1 =
      ImportOutcome.resolved s.queryHistory ∧
    (importHistory (Except.ok (exportHistoryDoc s)) t).2.queryHistory =
      s.queryHistory :=
  ⟨rfl, rfl⟩

/-- C8 counterexample: a 401 response carrying a server-supplied message
field still maps to the fixed message "Unauthorized access" — the adapter
does not fall back to the server-supplied message for this status. -/
theorem c8_counterexample :
    c8err.response = some { status := 401, message := some "custom server message" } ∧
    responseInterceptorError c8err = ApiError.request "Unauthorized access" :=
  ⟨rfl, rfl⟩

/-- C8 (amended): the response interceptor maps every received failure
response to a `RequestError`-style error whose message is the fixed text
for statuses 401/403/404/429/500 (any server-supplied message is ignored
there), and for status 400 and all other statuses is the non-empty
server-supplied message when present, else the fixed fallback text; a
transport failure with no response maps to the network error, and anything
else to the unknown error carrying the underlying message text (or a fixed
default when that is empty). -/
theorem c8_error_mapping (e : AxiosError) :
    responseInterceptorError e = amendedResponseError e := by
  obtain ⟨resp, req, msg⟩ := e
  cases resp with
  | none => rfl
  | some r =>
    obtain ⟨st, m⟩ := r
    simp only [responseInterceptorError, amendedResponseError]
    split <;> rename_i heq <;> cases m <;> simp_all [jsOrElse, apply_ite]

/-- C9: while `isProcessing` is true, `handleSubmit` is a no-op: the store
state (in particular the history) is unchanged, no history entry is added,
no outbound query call is issued, and the submission is dropped rather
than buffered (even the input field keeps its text, since the guard fires
before any mutation). -/
theorem c9_processing_drops_submission (now : ℚ) (ts : String) (s : NLQState)
    (input : String) (h : s.isProcessing = true) :
    (handleSubmit now ts s input).state = s ∧
    (handleSubmit now ts s input).historyAdds = 0 ∧
    (handleSubmit now ts s input).outboundCalls = 0 ∧
    (handleSubmit now ts s input).inputValue = input ∧
    (handleSubmit now ts s input).state.queryHistory = s.queryHistory := by
  have hc : (input.trim == "" || s.isProcessing) = true := by simp [h]
  simp [handleSubmit, hc]

/-- C9 witness: a concrete submission against a processing store. -/
theorem c9_processing_drops_submission_witness :
    (handleSubmit 0 "t" (setProcessing true initialState) "show sales").historyAdds = 0 ∧
    (handleSubmit 0 "t" (setProcessing true initialState) "show sales").outboundCalls = 0 :=
  ⟨(c9_processing_drops_submission 0 "t" (setProcessing true initialState)
      "show sales" rfl).2.1,
   (c9_processing_drops_submission 0 "t" (setProcessing true initialState)
      "show sales" rfl).2.2.1⟩
